import Mathlib

/-!
Verification of the Identity & Entitlement Resolution Subsystem of the
japanese-font-detector-saas frontend (`src/frontend/hooks/useAuth.js` and the
API client module bundled with it).

The JavaScript source is shallowly embedded: the browser-persisted key-value
store (`localStorage`) becomes an association list, asynchronous call outcomes
(`await user.getIdToken()`, backend HTTP responses, `getRedirectResult`)
become explicit `Except`/`Option` parameters, the global `window` check
becomes a `browser : Bool` flag, and the React state updates performed by the
`onAuthStateChanged` callback become an explicit trace of atomic actions so
that interleavings of concurrently running callbacks can be analysed.
-/

namespace FontDetector

/-! ## Persisted key-value store (localStorage) -/

/-- The device-scoped persisted key-value store (`localStorage`), as an
association list of string keys and string values. Later entries for the
same key are shadowed by earlier ones. -/
def Store := List (String × String)

instance : DecidableEq Store := by
  unfold Store
  infer_instance

/-- `localStorage.getItem`: the value stored under a key, or `none`. -/
def getItem : Store → String → Option String
  | [], _ => none
  | (k, v) :: rest, key => if k = key then some v else getItem rest key

/-- `localStorage.setItem`: store a value under a key. -/
def setItem (s : Store) (k v : String) : Store := (k, v) :: s

/-- JavaScript truthiness of `localStorage.getItem`'s result: `null` and the
empty string are falsy, every other string is truthy
(the source tests `if (!sessionId)`). -/
def jsFalsy : Option String → Bool
  | none => true
  | some s => s == ""

/-! ## Session Identity Store (`getSessionId`, `generateSessionId`,
`markTrialUsed`, `hasUsedTrial`) -/

/-- The `localStorage` key holding the anonymous session identifier. -/
def sessionIdKey : String := "font-detector-session-id"

/-- The `localStorage` key holding the trial-used flag. -/
def trialUsedKey : String := "font-detector-trial-used"

/-- `generateSessionId`: concatenation of the literal `sess_`, a random
base-36 token and a time-based base-36 suffix. The two tokens
(`Math.random().toString(36).substring(2)` and `Date.now().toString(36)`)
are taken as parameters. -/
def generateSessionId (randTok timeTok : String) : String :=
  "sess_" ++ randTok ++ timeTok

/-- `getSessionId`: in a browser (`typeof window !== 'undefined'`), read the
stored session id; if it is absent (or the empty string, which JavaScript
also treats as falsy), generate a fresh id and persist it. Outside a
browser, return `null` and leave the store untouched. Returns the id
together with the resulting store. -/
def getSessionId (browser : Bool) (randTok timeTok : String) (s : Store) :
    Option String × Store :=
  if browser then
    let sid := getItem s sessionIdKey
    if jsFalsy sid then
      let nid := generateSessionId randTok timeTok
      (some nid, setItem s sessionIdKey nid)
    else
      (sid, s)
  else
    (none, s)

/-- `markTrialUsed`: in a browser, persist the string `"true"` under the
trial-used key; otherwise do nothing. -/
def markTrialUsed (browser : Bool) (s : Store) : Store :=
  if browser then setItem s trialUsedKey "true" else s

/-- `hasUsedTrial`: in a browser, whether the stored trial-used value is the
string `"true"`; outside a browser, `false`. -/
def hasUsedTrial (browser : Bool) (s : Store) : Bool :=
  if browser then getItem s trialUsedKey == some "true" else false

/-! ## Basic store lemmas -/

theorem getItem_setItem (s : Store) (k v key : String) :
    getItem (setItem s k v) key = if k = key then some v else getItem s key := by
  simp [setItem, getItem]

theorem generateSessionId_ne_empty (r t : String) :
    generateSessionId r t ≠ "" := by
  intro h
  have hlen : (generateSessionId r t).length = 0 := by rw [h]; rfl
  simp [generateSessionId, String.length_append] at hlen
  exact absurd hlen.1.1 (by decide)

theorem jsFalsy_generated (r t : String) :
    jsFalsy (some (generateSessionId r t)) = false := by
  simp [jsFalsy]
  exact generateSessionId_ne_empty r t

/-! ## Request Authenticator (`apiClient.interceptors.request.use`) -/

/-- The request headers manipulated by the interceptor: the `Authorization`
bearer header and the `X-Session-ID` side-channel header. A field holding
`none` means the header is absent from the request. -/
structure RequestConfig where
  authorization : Option String
  xSessionId : Option String
deriving DecidableEq

/-- The request interceptor installed on `apiClient`.

`currentUser` embeds `auth.currentUser` (the federated identity's uid, or
`none`); `tokenResult` embeds the outcome of `await user.getIdToken()`
(only consulted when a user is present). The interceptor first attaches
the bearer header when a user is present — an error from `getIdToken`
propagates out of the (uncaught) `await`, rejecting the request — then
unconditionally calls `getSessionId()` and attaches `X-Session-ID`
whenever it returns a truthy value. Returns the final config and the
resulting store, or the propagated error. -/
def requestInterceptor (currentUser : Option String)
    (tokenResult : Except String String) (browser : Bool)
    (randTok timeTok : String) (store : Store) (config : RequestConfig) :
    Except String (RequestConfig × Store) :=
  match currentUser with
  | some _ =>
      match tokenResult with
      | Except.error e => Except.error e
      | Except.ok token =>
          let c1 := { config with authorization := some ("Bearer " ++ token) }
          match getSessionId browser randTok timeTok store with
          | (some sid, store1) =>
              Except.ok ({ c1 with xSessionId := some sid }, store1)
          | (none, store1) => Except.ok (c1, store1)
  | none =>
      match getSessionId browser randTok timeTok store with
      | (some sid, store1) =>
          Except.ok ({ config with xSessionId := some sid }, store1)
      | (none, store1) => Except.ok (config, store1)

/-! ## Entitlement usage check (`checkUsageLimit`) and detection (`detectFont`) -/

/-- The decision object returned by `checkUsageLimit`: the backend's
`/usage/check` payload on success, or the literal fallback
`\x7b can_use: false, reason: 'error' \x7d` on failure. -/
structure UsageDecision where
  can_use : Bool
  reason : String
deriving DecidableEq

/-- `checkUsageLimit`: logs the current session id (which may create one as a
side effect of `getSessionId()`), then issues `GET /usage/check`; `resp`
embeds that backend call's outcome (a timeout or network failure is an
`Except.error`). On failure the catch block returns
`\x7b can_use: false, reason: 'error' \x7d`; no decision is ever cached. -/
def checkUsageLimit (browser : Bool) (randTok timeTok : String) (s : Store)
    (resp : Except String UsageDecision) : UsageDecision × Store :=
  let s1 := (getSessionId browser randTok timeTok s).2
  match resp with
  | Except.ok d => (d, s1)
  | Except.error _ => ({ can_use := false, reason := "error" }, s1)

/-- `detectFont`: posts the upload (`resp` embeds the backend outcome); on
success, marks the free trial as used only when no federated identity is
current (`if (!auth.currentUser) markTrialUsed()`); on failure rethrows.
Polymorphic in the response payload. -/
def detectFont {α : Type} (currentUser : Option String) (browser : Bool)
    (store : Store) (resp : Except String α) : Except String (α × Store) :=
  match resp with
  | Except.ok d =>
      if currentUser.isNone then Except.ok (d, markTrialUsed browser store)
      else Except.ok (d, store)
  | Except.error e => Except.error e

/-! ## Auth State Synchronizer (`AuthProvider` / `onAuthStateChanged`) -/

/-- The backend profile returned by `GET /auth/me` (`getCurrentUser`). -/
structure Profile where
  uid : String
  email : String
  subscription_active : Bool
deriving DecidableEq

/-- The React state owned by `AuthProvider`: `user` (the federated identity,
here its uid), `userInfo` (the cached backend profile) and `loading`. -/
structure AuthState where
  user : Option String
  userInfo : Option Profile
  loading : Bool
deriving DecidableEq

/-- The initial `AuthProvider` state:
`useState(null)`, `useState(null)`, `useState(true)`. -/
def initialAuthState : AuthState :=
  { user := none, userInfo := none, loading := true }

/-- One atomic React state update performed by the `onAuthStateChanged`
callback. The callback suspends at each `await`, so a concurrently
delivered callback's updates can be interleaved between two updates of
this one. -/
inductive Action where
  | setUser : Option String → Action
  | setUserInfo : Option Profile → Action
  | setLoading : Bool → Action
deriving DecidableEq

/-- Apply one state update. -/
def applyAction (s : AuthState) : Action → AuthState
  | Action.setUser u => { s with user := u }
  | Action.setUserInfo p => { s with userInfo := p }
  | Action.setLoading b => { s with loading := b }

/-- Run a sequence of state updates in order. -/
def runActions (s : AuthState) (l : List Action) : AuthState :=
  l.foldl applyAction s

/-- The trace of atomic state updates performed by one invocation of the
`onAuthStateChanged` callback, given the delivered federated identity
(`firebaseUser`, embedded as its uid) and the outcomes of the awaited
backend calls: `fetch1` for the first `getCurrentUser()`, `reg` for
`registerUser()` (attempted only when the first fetch fails), `refetch`
for the `getCurrentUser()` retry (attempted only when registration
succeeds). A failing registration is caught, logged and otherwise
ignored: no retry, no state update. With no federated identity, both
`user` and `userInfo` are cleared. Every path ends with
`setLoading(false)`. -/
def onAuthStateChangedTrace (firebaseUser : Option String)
    (fetch1 : Except String Profile) (reg : Except String Unit)
    (refetch : Except String Profile) : List Action :=
  match firebaseUser with
  | some u =>
      Action.setUser (some u) ::
      (match fetch1 with
       | Except.ok d => [Action.setUserInfo (some d)]
       | Except.error _ =>
           match reg with
           | Except.ok _ =>
               match refetch with
               | Except.ok d => [Action.setUserInfo (some d)]
               | Except.error _ => []
           | Except.error _ => []) ++
      [Action.setLoading false]
  | none =>
      [Action.setUser none, Action.setUserInfo none, Action.setLoading false]

/-- `isInterleaving a b c`: `c` is a merge of `a` and `b` that preserves the
internal order of each. Models the possible schedules of two
`onAuthStateChanged` invocations whose awaited calls overlap (the event
stream delivers callbacks sequentially, but a callback suspended at an
`await` does not block the next delivery). -/
def isInterleaving : List Action → List Action → List Action → Bool
  | [], [], [] => true
  | _, _, [] => false
  | as, bs, c :: cs =>
      (match as with
       | a :: as2 => a == c && isInterleaving as2 bs cs
       | [] => false) ||
      (match bs with
       | b :: bs2 => b == c && isInterleaving as bs2 cs
       | [] => false)

/-! ## Redirect Completion Handler (`handleRedirectResult`) -/

/-- A user-facing toast notification. -/
inductive Toast where
  | success : String → Toast
  | error : String → Toast
deriving DecidableEq

/-- `handleRedirectResult`: awaits `getRedirectResult(auth)` (`redirect`
embeds its outcome; `Except.ok none` is a null result, i.e. no pending
redirect). When a redirect produced a user, `registerUser()` is awaited
inside the same `try` block, so a registration failure — including a
duplicate-registration conflict — falls to the catch block and surfaces
the user-facing error toast; on success a success toast is shown.
Returns the toasts produced. -/
def handleRedirectResult (redirect : Except String (Option String))
    (reg : Except String Unit) : List Toast :=
  match redirect with
  | Except.error _ => [Toast.error "ログインに失敗しました"]
  | Except.ok none => []
  | Except.ok (some _) =>
      match reg with
      | Except.ok _ => [Toast.success "ログインが完了しました"]
      | Except.error _ => [Toast.error "ログインに失敗しました"]

/-! ## Helper lemmas -/

/-- In a browser, `getSessionId` always yields a session id (the stored one,
or a freshly generated one when the stored value is absent or falsy). -/
theorem getSessionId_browser_isSome (r t : String) (s : Store) :
    ∃ v s1, getSessionId true r t s = (some v, s1) := by
  cases hsid : getItem s sessionIdKey with
  | none =>
      exact ⟨generateSessionId r t, setItem s sessionIdKey (generateSessionId r t),
        by simp [getSessionId, hsid, jsFalsy]⟩
  | some x =>
      by_cases hx : x = ""
      · exact ⟨generateSessionId r t, setItem s sessionIdKey (generateSessionId r t),
          by simp [getSessionId, hsid, hx, jsFalsy]⟩
      · exact ⟨x, s, by simp [getSessionId, hsid, hx, jsFalsy]⟩

/-! ## C1 — credential precedence -/

/-- C1 counterexample: with a federated identity current (obtainable bearer
token) and a session id obtainable (browser, fresh store), the interceptor
attaches BOTH the `Authorization` header and the `X-Session-ID` header —
the session header is not omitted, contradicting the claim. -/
theorem bearer_and_session_header_both_attached_cex :
    requestInterceptor (some "user-1") (Except.ok "tok") true "r" "t" []
      { authorization := none, xSessionId := none } =
    Except.ok ({ authorization := some "Bearer tok", xSessionId := some "sess_rt" },
      [(sessionIdKey, "sess_rt")]) ∧
    (some "sess_rt" : Option String) ≠ none := by
  exact ⟨rfl, by simp⟩

/-- C1 amended: when both a bearer token and a session id are obtainable, the
Request Authenticator attaches the bearer token AND also attaches the
`X-Session-ID` header; the session header is never omitted in a browser. -/
theorem bearer_token_does_not_suppress_session_header (u token r t : String)
    (s : Store) (c : RequestConfig) :
    ∃ sid s1, requestInterceptor (some u) (Except.ok token) true r t s c =
      Except.ok ({ c with authorization := some ("Bearer " ++ token),
                          xSessionId := some sid }, s1) := by
  obtain ⟨v, s1, h⟩ := getSessionId_browser_isSome r t s
  exact ⟨v, s1, by simp [requestInterceptor, h]⟩

/-! ## C4 — interceptor error behaviour -/

/-- C4 counterexample: when obtaining the bearer token fails for a federated
identity, the interceptor rejects with the error instead of dispatching
the request unauthenticated — it does throw. -/
theorem interceptor_rejects_on_token_error_cex :
    requestInterceptor (some "user-1") (Except.error "token-refresh-failed")
      true "r" "t" [] { authorization := none, xSessionId := none } =
    Except.error "token-refresh-failed" := rfl

/-- C4 amended: the uncaught `await user.getIdToken()` makes the interceptor
propagate every token-refresh error for a federated identity (the request
is rejected, not sent unauthenticated); only when no federated identity is
present does the interceptor never fail. -/
theorem interceptor_error_propagation (u e : String) (b : Bool) (r t : String)
    (s : Store) (c : RequestConfig) :
    requestInterceptor (some u) (Except.error e) b r t s c = Except.error e ∧
    ∀ tok : Except String String,
      ∃ out, requestInterceptor none tok b r t s c = Except.ok out := by
  refine ⟨rfl, fun tok => ?_⟩
  rcases h : getSessionId b r t s with ⟨sid, s1⟩
  cases sid with
  | none => exact ⟨(c, s1), by simp [requestInterceptor, h]⟩
  | some v =>
      exact ⟨({ c with xSessionId := some v }, s1), by simp [requestInterceptor, h]⟩

/-! ## C5 — usage check fails closed -/

/-- C5: whenever the backend `/usage/check` call fails (timeout included),
`checkUsageLimit` returns the decision `can_use = false, reason = "error"`;
the failure result is a fixed literal, independent of the store state, so
no previously obtained positive decision can be returned. -/
theorem usage_check_fails_closed (browser : Bool) (r t e : String) (s : Store) :
    (checkUsageLimit browser r t s (Except.error e)).1 =
      { can_use := false, reason := "error" } ∧
    ((checkUsageLimit browser r t s (Except.error e)).1).can_use = false ∧
    ∀ (s2 : Store) (r2 t2 : String),
      (checkUsageLimit browser r t s (Except.error e)).1 =
        (checkUsageLimit browser r2 t2 s2 (Except.error e)).1 := by
  refine ⟨rfl, rfl, fun s2 r2 t2 => rfl⟩

/-! ## C6 — SessionRecord accessed only while Anonymous/Unresolved -/

/-- C6 counterexample: an operation performed while a Federated identity is
current does access the SessionRecord — the request interceptor, given a
federated identity and a fresh store, writes a freshly generated session
id to the persisted store. -/
theorem session_record_written_while_federated_cex :
    requestInterceptor (some "user-1") (Except.ok "tok") true "x" "y" []
      { authorization := none, xSessionId := none } =
    Except.ok ({ authorization := some "Bearer tok", xSessionId := some "sess_xy" },
      [(sessionIdKey, "sess_xy")]) ∧
    ([(sessionIdKey, "sess_xy")] : Store) ≠ [] := by
  refine ⟨rfl, by simp [Store]⟩

/-- C6 amended: the SessionRecord is accessed regardless of the current
identity — the interceptor reads (and, on a fresh store, writes) the
session-id key even while a Federated identity is current; only the
trial-used write in `detectFont` is restricted to the anonymous case. -/
theorem session_record_access_independent_of_identity (u token r t : String)
    (c : RequestConfig) (browser : Bool) (s : Store) (d : String) :
    (∃ cfg, requestInterceptor (some u) (Except.ok token) true r t [] c =
        Except.ok (cfg, setItem [] sessionIdKey (generateSessionId r t))) ∧
    detectFont (some u) browser s (Except.ok d) = Except.ok (d, s) := by
  constructor
  · exact ⟨_, rfl⟩
  · simp [detectFont]

/-! ## C7 — trial-flag monotonicity -/

/-- The store-affecting operations of the subsystem: `getSessionId` (which may
create the session id), `markTrialUsed`, `hasUsedTrial` (a pure read), and
`detectFont` (which marks the trial used on an anonymous success). -/
inductive StoreOp where
  | getSession : String → String → StoreOp
  | markTrial : StoreOp
  | readTrial : StoreOp
  | detect : Option String → Bool → StoreOp
deriving DecidableEq

/-- The effect of one subsystem operation on the persisted store. -/
def applyStoreOp (browser : Bool) (s : Store) : StoreOp → Store
  | StoreOp.getSession r t => (getSessionId browser r t s).2
  | StoreOp.markTrial => markTrialUsed browser s
  | StoreOp.readTrial => s
  | StoreOp.detect u ok =>
      match detectFont u browser s
          (if ok then Except.ok () else Except.error "upload failed") with
      | Except.ok (_, s1) => s1
      | Except.error _ => s

/-- No subsystem operation ever clears the trial-used flag. -/
theorem trialUsed_preserved (op : StoreOp) (s : Store)
    (h : getItem s trialUsedKey = some "true") :
    getItem (applyStoreOp true s op) trialUsedKey = some "true" := by
  have hkeys : sessionIdKey ≠ trialUsedKey := by decide
  cases op with
  | getSession r t =>
      by_cases hf : jsFalsy (getItem s sessionIdKey) = true
      · simp [applyStoreOp, getSessionId, hf, getItem_setItem, hkeys, h]
      · simp [applyStoreOp, getSessionId, hf, h]
  | markTrial => simp [applyStoreOp, markTrialUsed, getItem_setItem]
  | readTrial => exact h
  | detect u ok =>
      cases ok with
      | false => simpa [applyStoreOp, detectFont] using h
      | true =>
          cases u with
          | none => simp [applyStoreOp, detectFont, markTrialUsed, getItem_setItem]
          | some v => simpa [applyStoreOp, detectFont, markTrialUsed] using h

/-- C7: after `markTrialUsed()`, any number of subsystem operations (none of
which deletes the flag) still leaves `hasUsedTrial()` returning `true` —
the trial-used flag is monotonic. -/
theorem trial_flag_monotonic (s : Store) (ops : List StoreOp) :
    hasUsedTrial true (List.foldl (applyStoreOp true) (markTrialUsed true s) ops) = true := by
  have key : ∀ (l : List StoreOp) (st : Store), getItem st trialUsedKey = some "true" →
      getItem (List.foldl (applyStoreOp true) st l) trialUsedKey = some "true" := by
    intro l
    induction l with
    | nil => intro st h; exact h
    | cons op rest ih => intro st h; exact ih _ (trialUsed_preserved op st h)
  have h0 : getItem (markTrialUsed true s) trialUsedKey = some "true" := by
    simp [markTrialUsed, getItem_setItem]
  simp [hasUsedTrial, key ops _ h0]

/-! ## C8 — session-id idempotence -/

/-- C8: on a fresh store the first `getSessionId` call generates an id and
writes it; every subsequent call returns the identical value and leaves
the store unchanged (no further write). -/
theorem getSessionId_idempotent (s : Store) (r1 t1 : String)
    (hfresh : getItem s sessionIdKey = none) :
    getSessionId true r1 t1 s =
      (some (generateSessionId r1 t1),
       setItem s sessionIdKey (generateSessionId r1 t1)) ∧
    ∀ r2 t2 : String,
      getSessionId true r2 t2 (setItem s sessionIdKey (generateSessionId r1 t1)) =
        (some (generateSessionId r1 t1),
         setItem s sessionIdKey (generateSessionId r1 t1)) := by
  constructor
  · simp [getSessionId, hfresh, jsFalsy]
  · intro r2 t2
    simp [getSessionId, getItem_setItem, jsFalsy_generated]

/-- C8 witness: concrete run on the empty store. -/
theorem getSessionId_idempotent_witness :
    getItem ([] : Store) sessionIdKey = none ∧
    getSessionId true "aaa" "bbb" [] =
      (some (generateSessionId "aaa" "bbb"),
       setItem [] sessionIdKey (generateSessionId "aaa" "bbb")) ∧
    getSessionId true "ccc" "ddd" (setItem [] sessionIdKey (generateSessionId "aaa" "bbb")) =
      (some (generateSessionId "aaa" "bbb"),
       setItem [] sessionIdKey (generateSessionId "aaa" "bbb")) :=
  ⟨rfl, (getSessionId_idempotent [] "aaa" "bbb" rfl).1,
    (getSessionId_idempotent [] "aaa" "bbb" rfl).2 "ccc" "ddd"⟩

/-! ## C10 — non-browser behaviour and session-id shape -/

/-- C10: outside a browser `getSessionId` returns `none` and performs no store
write, `hasUsedTrial` returns `false`, and every generated session id
starts with the literal `sess_`. -/
theorem non_browser_session_ops (r t : String) (s : Store) :
    getSessionId false r t s = (none, s) ∧
    hasUsedTrial false s = false ∧
    ∃ rest, generateSessionId r t = "sess_" ++ rest := by
  refine ⟨rfl, rfl, ⟨r ++ t, ?_⟩⟩
  simp [generateSessionId, String.append_assoc]

/-! ## C2 — duplicate registration handling -/

/-- C2 counterexample: when the profile fetch fails and the subsequent
registration fails with a duplicate-account conflict, the Synchronizer
path does NOT re-fetch (the cached profile stays `null`, never reaching
the ready state), and the Redirect Completion Handler path surfaces a
user-facing error toast for the very same conflict. -/
theorem duplicate_registration_not_recovered_cex :
    (runActions initialAuthState
      (onAuthStateChangedTrace (some "user-1") (Except.error "404 not registered")
        (Except.error "409 already registered")
        (Except.ok ⟨"user-1", "u@example.com", false⟩))).userInfo = none ∧
    handleRedirectResult (Except.ok (some "user-1"))
        (Except.error "409 already registered") =
      [Toast.error "ログインに失敗しました"] :=
  ⟨rfl, rfl⟩

/-- C2 amended: a registration failure — duplicate-account conflicts
included — is swallowed by the Synchronizer without re-fetching, leaving
the cached profile `null` (the ready state is not reached, though no
toast is emitted on that path), while the Redirect Completion Handler
surfaces the same failure as a user-facing login-error toast. -/
theorem duplicate_registration_skips_refetch_and_redirect_toasts_error
    (u e1 e2 : String) (refetch : Except String Profile) :
    runActions initialAuthState
      (onAuthStateChangedTrace (some u) (Except.error e1) (Except.error e2) refetch) =
      { user := some u, userInfo := none, loading := false } ∧
    handleRedirectResult (Except.ok (some u)) (Except.error e2) =
      [Toast.error "ログインに失敗しました"] := by
  constructor
  · simp [onAuthStateChangedTrace, runActions, applyAction, initialAuthState]
  · rfl

/-! ## C3 — last-event-wins -/

/-- C3 counterexample: identity event B (`uB`) arrives while event A's
(`uA`'s) profile fetch is in flight; in the exhibited interleaving (a
legal schedule of the two callback traces) A's fetch resolves after B's
sequence fully commits, so A's stale profile is the one that ends up
committed — the claim that A's stale result never commits is false. -/
theorem stale_profile_commit_cex :
    isInterleaving
      (onAuthStateChangedTrace (some "uA") (Except.ok ⟨"uA", "a@example.com", true⟩)
        (Except.ok ()) (Except.ok ⟨"uA", "a@example.com", true⟩))
      (onAuthStateChangedTrace (some "uB") (Except.ok ⟨"uB", "b@example.com", true⟩)
        (Except.ok ()) (Except.ok ⟨"uB", "b@example.com", true⟩))
      [Action.setUser (some "uA"), Action.setUser (some "uB"),
       Action.setUserInfo (some ⟨"uB", "b@example.com", true⟩), Action.setLoading false,
       Action.setUserInfo (some ⟨"uA", "a@example.com", true⟩), Action.setLoading false]
      = true ∧
    (runActions initialAuthState
      [Action.setUser (some "uA"), Action.setUser (some "uB"),
       Action.setUserInfo (some ⟨"uB", "b@example.com", true⟩), Action.setLoading false,
       Action.setUserInfo (some ⟨"uA", "a@example.com", true⟩), Action.setLoading false]).userInfo
      = some ⟨"uA", "a@example.com", true⟩ ∧
    (⟨"uA", "a@example.com", true⟩ : Profile) ≠ ⟨"uB", "b@example.com", true⟩ := by
  refine ⟨by decide, rfl, by decide⟩

/-- C3 amended: the callback has no last-event-wins guard, so committed state
reflects whichever sequence's profile write executes last; only when A's
sequence completes before B's begins is the committed state guaranteed to
be B's profile. -/
theorem serialized_events_commit_latest_profile (uA uB : String) (pA pB : Profile)
    (regA regB : Except String Unit) (rfA rfB : Except String Profile) :
    runActions initialAuthState
      (onAuthStateChangedTrace (some uA) (Except.ok pA) regA rfA ++
       onAuthStateChangedTrace (some uB) (Except.ok pB) regB rfB) =
      { user := some uB, userInfo := some pB, loading := false } := by
  simp [onAuthStateChangedTrace, runActions, applyAction, initialAuthState]

/-! ## C9 — profile/identity invariant -/

/-- C9 counterexample: a sign-out event processed while a sign-in's profile
fetch is still in flight (a legal interleaving of the two callback
traces) leaves a committed state with `userInfo ≠ null` but `user = null`
— a transition of the Synchronizer does not preserve the invariant. -/
theorem stale_fetch_breaks_profile_invariant_cex :
    isInterleaving
      (onAuthStateChangedTrace (some "uA") (Except.ok ⟨"uA", "a@example.com", true⟩)
        (Except.ok ()) (Except.ok ⟨"uA", "a@example.com", true⟩))
      (onAuthStateChangedTrace none (Except.error "no fetch") (Except.ok ())
        (Except.error "no fetch"))
      [Action.setUser (some "uA"), Action.setUser none, Action.setUserInfo none,
       Action.setLoading false,
       Action.setUserInfo (some ⟨"uA", "a@example.com", true⟩), Action.setLoading false]
      = true ∧
    (runActions initialAuthState
      [Action.setUser (some "uA"), Action.setUser none, Action.setUserInfo none,
       Action.setLoading false,
       Action.setUserInfo (some ⟨"uA", "a@example.com", true⟩), Action.setLoading false]).user
      = none ∧
    (runActions initialAuthState
      [Action.setUser (some "uA"), Action.setUser none, Action.setUserInfo none,
       Action.setLoading false,
       Action.setUserInfo (some ⟨"uA", "a@example.com", true⟩), Action.setLoading false]).userInfo
      = some ⟨"uA", "a@example.com", true⟩ := by
  refine ⟨by decide, rfl, rfl⟩

/-- C9 amended: each callback run to completion without interleaving preserves
the invariant (a non-null cached profile implies a federated user), and
processing an identity event with no federated user clears both `user` and
`userInfo`; the invariant can only be broken by a stale in-flight fetch
interleaved across a sign-out. -/
theorem atomic_callback_preserves_profile_invariant (firebaseUser : Option String)
    (f1 : Except String Profile) (reg : Except String Unit)
    (f2 : Except String Profile) (s : AuthState)
    (h : s.userInfo ≠ none → s.user ≠ none) :
    ((runActions s (onAuthStateChangedTrace firebaseUser f1 reg f2)).userInfo ≠ none →
      (runActions s (onAuthStateChangedTrace firebaseUser f1 reg f2)).user ≠ none) ∧
    runActions s (onAuthStateChangedTrace none f1 reg f2) =
      { user := none, userInfo := none, loading := false } := by
  constructor
  · cases firebaseUser with
    | none => simp [onAuthStateChangedTrace, runActions, applyAction]
    | some u =>
        cases f1 with
        | ok d => simp [onAuthStateChangedTrace, runActions, applyAction]
        | error e1 =>
            cases reg with
            | error e2 => simp [onAuthStateChangedTrace, runActions, applyAction]
            | ok r =>
                cases f2 with
                | ok d => simp [onAuthStateChangedTrace, runActions, applyAction]
                | error e3 => simp [onAuthStateChangedTrace, runActions, applyAction]
  · simp [onAuthStateChangedTrace, runActions, applyAction]

/-- C9 witness: the amended theorem applied at the initial state with a
concrete sign-out event. -/
theorem atomic_callback_preserves_profile_invariant_witness :
    runActions initialAuthState
      (onAuthStateChangedTrace none (Except.ok ⟨"u", "u@example.com", true⟩)
        (Except.ok ()) (Except.ok ⟨"u", "u@example.com", true⟩)) =
      { user := none, userInfo := none, loading := false } :=
  (atomic_callback_preserves_profile_invariant none
    (Except.ok ⟨"u", "u@example.com", true⟩) (Except.ok ())
    (Except.ok ⟨"u", "u@example.com", true⟩) initialAuthState
    (by intro hn; exact absurd rfl hn)).2

end FontDetector
